import Mathlib

/-!
Verification of the `jira-mcp-server` update-issue pipeline: the ADF
normalizer (`src/utils/adfUtils.ts`), the recursive ADF node validator,
credential resolution (`src/utils/auth.ts`, `getJiraCredentials`), the
user/transition resolvers, the field-payload builder, the error
classifier and the `updateIssue` orchestration
(`src/tools/updateIssue.ts`).  JavaScript values are modelled by the
inductive `JVal`; remote calls are modelled by a `World` record giving
each endpoint's outcome; exceptions are modelled by `Except` over the
`JsError` taxonomy.
-/

set_option maxHeartbeats 1000000
set_option maxRecDepth 100000

/-- A JavaScript runtime value, as far as the code under study inspects
one: strings, numbers, booleans, `null`, `undefined`, arrays and plain
objects (an association list of own properties). -/
inductive JVal where
  | str : String → JVal
  | num : Int → JVal
  | bool : Bool → JVal
  | null : JVal
  | undefined : JVal
  | arr : List JVal → JVal
  | obj : List (String × JVal) → JVal
deriving Repr

/-- JavaScript truthiness (`!v` is `!jsTruthy v`); `NaN` is not modelled. -/
def jsTruthy : JVal → Bool
  | .str s => !s.isEmpty
  | .num n => n != 0
  | .bool b => b
  | .null => false
  | .undefined => false
  | .arr _ => true
  | .obj _ => true

/-- Property access `v.k`: the stored value on an object, `undefined`
otherwise (array index properties are not needed by the code). -/
def getField (v : JVal) (k : String) : JVal :=
  match v with
  | .obj kvs => (List.lookup k kvs).getD .undefined
  | _ => .undefined

/-- `typeof v === "object"` (true for objects, arrays and `null`). -/
def isObjectTypeB : JVal → Bool
  | .obj _ => true
  | .arr _ => true
  | .null => true
  | _ => false

/-- `Array.isArray v`. -/
def isArrB : JVal → Bool
  | .arr _ => true
  | _ => false

/-- `v === s` for a string literal `s`. -/
def isStrEqB (v : JVal) (s : String) : Bool :=
  match v with
  | .str t => t == s
  | _ => false

/-- `v === n` for a number literal `n`. -/
def isNumEqB (v : JVal) (n : Int) : Bool :=
  match v with
  | .num m => m == n
  | _ => false

/-- `typeof v === 'string' && v.length > 0`. -/
def isNonEmptyStrB : JVal → Bool
  | .str s => !s.isEmpty
  | _ => false

/-- `typeof v === 'object' && v !== null`. -/
def isObjectNonNullB (v : JVal) : Bool :=
  isObjectTypeB v && !(v matches .null)

theorem sizeOf_jval_pos (v : JVal) : 0 < sizeOf v := by
  cases v <;> simp

theorem lookup_sizeOf_lt {kvs : List (String × JVal)} {k : String} {v : JVal}
    (h : List.lookup k kvs = some v) : sizeOf v < sizeOf kvs := by
  induction kvs with
  | nil => simp [List.lookup] at h
  | cons p rest ih =>
    rw [List.lookup] at h
    by_cases hk : k == p.1
    · simp [hk] at h
      subst h
      cases p with
      | mk a b => simp; omega
    · simp [hk] at h
      have := ih h
      cases p with
      | mk a b => simp; omega

theorem getField_sizeOf_le (v : JVal) (k : String) :
    sizeOf (getField v k) ≤ sizeOf v := by
  cases v with
  | obj kvs =>
    simp only [getField]
    cases hl : List.lookup k kvs with
    | none => simp
    | some w =>
      have := lookup_sizeOf_lt hl
      simp
      omega
  | str s => simp [getField]
  | num n => simp [getField]
  | bool b => simp [getField]
  | null => simp [getField]
  | undefined => simp [getField]
  | arr l => simp [getField]

/-- Embeds `isValidADFNodeArray` (the recursive ADF node validator).  The
source takes the candidate array itself; a non-array argument is invalid,
an empty array is valid, and each node must be a non-null object with a
non-empty string `type`, whose `content`, when present, is an array of
recursively valid nodes. -/
def isValidADFNodeArray : JVal → Bool
  | .arr [] => true
  | .arr (node :: rest) =>
      (isObjectNonNullB node &&
        isNonEmptyStrB (getField node "type") &&
        (match _h : getField node "content" with
         | .undefined => true
         | c => isValidADFNodeArray c))
      && isValidADFNodeArray (.arr rest)
  | _ => false
termination_by v => sizeOf v
decreasing_by
  · have hle := getField_sizeOf_le node "content"
    rw [_h] at hle
    simp
    omega
  · simp

/-- The canonical empty ADF document built by `toADF` for falsy or
unrecognized input: one paragraph node with no children. -/
def emptyADFDoc : JVal :=
  .obj [("type", .str "doc"), ("version", .num 1),
        ("content", .arr [.obj [("type", .str "paragraph"), ("content", .arr [])]])]

/-- The canonical ADF document `toADF` builds for a string: one paragraph
node containing one text leaf holding the string. -/
def stringADFDoc (s : String) : JVal :=
  .obj [("type", .str "doc"), ("version", .num 1),
        ("content", .arr [.obj [("type", .str "paragraph"),
          ("content", .arr [.obj [("type", .str "text"), ("text", .str s)]])]])]

/-- The shallow ADF-document check actually performed by `toADF`:
`typeof description === "object" && description.type === "doc" &&
description.version === 1 && Array.isArray(description.content)`. -/
def shallowADFDocCheck (v : JVal) : Bool :=
  isObjectTypeB v && isStrEqB (getField v "type") "doc"
    && isNumEqB (getField v "version") 1 && isArrB (getField v "content")

/-- Embeds `toADF` (`src/utils/adfUtils.ts`): falsy input gives the
canonical empty document; an object passing the shallow doc check is
returned unchanged; a string becomes the canonical one-paragraph
document; anything else falls back to the empty document. -/
def toADF (description : JVal) : JVal :=
  if !(jsTruthy description) then emptyADFDoc
  else if shallowADFDocCheck description then description
  else
    match description with
    | .str s => stringADFDoc s
    | _ => emptyADFDoc

/-- The recursive rich-document invariant (per the spec's data model and
the schema validator `jiraUpdateIssueValidator`): root kind `"doc"`,
version `1`, and children an array that `isValidADFNodeArray` accepts. -/
def recursiveDocValid (v : JVal) : Bool :=
  isObjectTypeB v && isStrEqB (getField v "type") "doc"
    && isNumEqB (getField v "version") 1 && isArrB (getField v "content")
    && isValidADFNodeArray (getField v "content")

/-- JavaScript `a || b` on strings: `b` when `a` is the empty string. -/
def jsOrStr (a b : String) : String :=
  if a.isEmpty then b else a

/-- JavaScript truthiness of a `string | undefined` value. -/
def jsTruthyOptStr : Option String → Bool
  | some s => !s.isEmpty
  | none => false

/-- JavaScript `a || b` where both sides are `string | undefined`
(an empty or absent `a` falls through to `b`). -/
def jsOrOpt (a b : Option String) : Option String :=
  if jsTruthyOptStr a then a else b

/-- JavaScript `a || d` where `a` is `string | undefined` and `d` a
string default. -/
def jsOrOptD (a : Option String) (d : String) : String :=
  match a with
  | some s => if s.isEmpty then d else s
  | none => d

/-- `s` contains `pat` as a contiguous substring. -/
def strContains (s pat : String) : Bool :=
  decide (pat.data <:+: s.data)

theorem strContains_of_append_right {t pat : String} (s : String)
    (h : strContains t pat = true) : strContains (s ++ t) pat = true := by
  simp [strContains] at h ⊢
  exact h.trans ⟨s.data, [], by simp⟩

theorem strContains_of_append_left {s pat : String} (t : String)
    (h : strContains s pat = true) : strContains (s ++ t) pat = true := by
  simp [strContains] at h ⊢
  exact h.trans ⟨[], t.data, by simp⟩

theorem strContains_refl (s : String) : strContains s s = true := by
  simp [strContains]

/-- JavaScript `Array.prototype.join(sep)`. -/
def joinWith (sep : String) : List String → String
  | [] => ""
  | [x] => x
  | x :: y :: rest => x ++ sep ++ joinWith sep (y :: rest)

theorem strContains_joinWith {m : String} (sep : String) :
    ∀ {l : List String}, m ∈ l → strContains (joinWith sep l) m = true := by
  intro l
  induction l with
  | nil => intro h; cases h
  | cons x rest ih =>
    intro h
    cases rest with
    | nil =>
      cases h with
      | head => exact strContains_refl m
      | tail _ hm => cases hm
    | cons y t =>
      cases h with
      | head =>
        show strContains (m ++ sep ++ joinWith sep (y :: t)) m = true
        exact strContains_of_append_left _ (strContains_of_append_left _ (strContains_refl m))
      | tail _ hm =>
        show strContains (x ++ sep ++ joinWith sep (y :: t)) m = true
        exact strContains_of_append_right _ (ih hm)

/-- The base64 alphabet used by `Buffer.toString('base64')`. -/
def base64Chars : List Char :=
  "ABCDEFGHIJKLMNOPQRSTUVWXYZabcdefghijklmnopqrstuvwxyz0123456789+/".data

/-- One base64 digit. -/
def base64Digit (n : Nat) : Char :=
  base64Chars.getD n 'A'

/-- Standard base64 with padding over a byte list. -/
def base64Encode : List Nat → List Char
  | [] => []
  | [a] => [base64Digit (a / 4), base64Digit (a % 4 * 16), '=', '=']
  | [a, b] => [base64Digit (a / 4), base64Digit (a % 4 * 16 + b / 16),
               base64Digit (b % 16 * 4), '=']
  | a :: b :: c :: rest =>
      [base64Digit (a / 4), base64Digit (a % 4 * 16 + b / 16),
       base64Digit (b % 16 * 4 + c / 64), base64Digit (c % 64)]
      ++ base64Encode rest

/-- Embeds `createAuthHeader` (`src/utils/auth.ts`): the Basic scheme over
base64 of `email:apiToken` (UTF-8). -/
def createAuthHeader (email apiToken : String) : String :=
  "Basic " ++ String.mk (base64Encode ((email ++ ":" ++ apiToken).toUTF8.toList.map (fun b => b.toNat)))

/-- Embeds `validateCredentials` (`src/utils/auth.ts`): collects the
missing (falsy) fields in order and throws a `CredentialsError` naming
all of them when any is missing. -/
def validateCredentials (jiraHost email apiToken : Option String) : Except String Unit :=
  let missingFields : List String :=
    (if !jsTruthyOptStr jiraHost then ["Jira host"] else [])
    ++ (if !jsTruthyOptStr email then ["email"] else [])
    ++ (if !jsTruthyOptStr apiToken then ["API token"] else [])
  if missingFields.length > 0 then
    .error ("Missing required Jira credentials: " ++ joinWith ", " missingFields
      ++ ". Please provide them in the request or set them as environment variables (JIRA_HOST, JIRA_EMAIL, JIRA_API_TOKEN).")
  else
    .ok ()

/-- A Jira user record as consumed by `searchJiraUser`
(`jira-api-types.ts`): `displayName` is optional in the interface. -/
structure User where
  accountId : String
  displayName : Option String
  active : Bool
deriving Repr, DecidableEq

/-- The `to` part of a transition (`jira-api-types.ts`). -/
structure TransitionTo where
  name : String
  id : String
deriving Repr, DecidableEq

/-- An available workflow transition (`jira-api-types.ts`); the source
field `to` is a Lean keyword, rendered here as `toStatus`. -/
structure Transition where
  id : String
  name : String
  toStatus : TransitionTo
deriving Repr, DecidableEq

/-- The issue status object used by the success formatter. -/
structure IssueStatus where
  id : String
  name : String
deriving Repr, DecidableEq

/-- The issue fields consumed by `formatSuccessResponseMessage`. -/
structure IssueFields where
  summary : Option String
  status : Option IssueStatus
  assignee : Option User
deriving Repr, DecidableEq

/-- An issue snapshot (`jira-api-types.ts`, the fields this code reads). -/
structure Issue where
  id : String
  key : String
  fields : IssueFields
deriving Repr, DecidableEq

/-- `String.prototype.toLowerCase` as the source uses it (ASCII case
folding per character); implemented over the character list so that it
evaluates by kernel reduction. -/
def jsToLowerCase (s : String) : String :=
  String.mk (s.data.map Char.toLower)

/-- The selection logic of `searchJiraUser` applied to the remote
response body (`response.data`, which may be `null`/absent): `undefined`
when there is no data or no results; else the first active
case-insensitive display-name match; else the first active user. -/
def searchJiraUserSelect (data : Option (List User)) (userName : String) : Option User :=
  match data with
  | none => none
  | some users =>
    if users.isEmpty then none
    else
      let exactMatch := users.find? (fun u =>
        (match u.displayName with
         | some d => jsToLowerCase d == jsToLowerCase userName
         | none => false) && u.active)
      match exactMatch with
      | some u => some u
      | none => users.find? (fun u => u.active)

/-- Embeds `findTargetTransition`: the first transition whose `to.name`
matches the target status name case-insensitively. -/
def findTargetTransition (transitions : List Transition) (targetStatusName : String) :
    Option Transition :=
  transitions.find? (fun t => jsToLowerCase t.toStatus.name == jsToLowerCase targetStatusName)

/-- The `fields` part of the Jira update payload
(`JiraUpdateIssuePayloadFields`); `assignee` holds the account id. -/
structure JiraUpdateIssuePayloadFields where
  summary : Option String
  description : Option JVal
  assignee : Option String
deriving Repr

/-- `Object.keys(fields).length === 0`. -/
def fieldsEmpty (f : JiraUpdateIssuePayloadFields) : Bool :=
  f.summary.isNone && f.description.isNone && f.assignee.isNone

/-- Embeds `buildJiraUpdateFieldsPayload`: `summary` kept whenever
provided (empty string included), `description` passed through the ADF
converter whenever provided, `assignee` only for a truthy account id. -/
def buildJiraUpdateFieldsPayload (summary : Option String) (description : Option JVal)
    (assigneeAccountId : Option String) (adfConverter : JVal → JVal) :
    JiraUpdateIssuePayloadFields :=
  { summary := summary
    description := description.map adfConverter
    assignee :=
      match assigneeAccountId with
      | some a => if a.isEmpty then none else some a
      | none => none }

/-- The values the orchestration can catch, mirroring the duck-typed
discrimination in `mapErrorToResponseFormat`: a yup `ValidationError`, a
`CredentialsError`, an `AxiosError` (with a response, with only a
request, or failing at setup), a plain `Error`, or a thrown non-Error
value. -/
inductive JsError where
  | validationErr (message : String) (errors : List String) (path : String) (valueJson : String)
  | credentialsErr (message : String)
  | axiosResp (message : String) (status : Nat)
      (dataErrorMessages : Option (List String)) (dataErrors : Option String) (dataJson : String)
  | axiosNoResp (message : String)
  | axiosSetup (message : String)
  | plainErr (message : String)
  | nonErrorThrown (stringRepr : String)
deriving Repr, DecidableEq

/-- Embeds the `isAxiosErr` type guard (`src/utils/errorUtils.ts`). -/
def isAxiosErrB : JsError → Bool
  | .axiosResp .. => true
  | .axiosNoResp .. => true
  | .axiosSetup .. => true
  | _ => false

/-- `e instanceof Error` (true for every modelled throwable except a
non-Error value). -/
def isErrorInstanceB : JsError → Bool
  | .nonErrorThrown .. => false
  | _ => true

/-- The `.message` property of a caught value. -/
def jsErrMessage : JsError → String
  | .validationErr m _ _ _ => m
  | .credentialsErr m => m
  | .axiosResp m _ _ _ _ => m
  | .axiosNoResp m => m
  | .axiosSetup m => m
  | .plainErr m => m
  | .nonErrorThrown r => r

/-- The message the local catch blocks in `updateIssue` build:
`isAxiosErr(e) ? e.message : (e instanceof Error ? e.message :
fallback)`. -/
def localCatchMessage (e : JsError) (fallback : String) : String :=
  if isAxiosErrB e then jsErrMessage e
  else if isErrorInstanceB e then jsErrMessage e
  else fallback

/-- The tool response shape `{content: [{type: "text", text}], isError}`;
`content` lists the `text` of each `{type: "text"}` item. -/
structure ToolResponse where
  content : List String
  isError : Bool
deriving Repr, DecidableEq

/-- Embeds `mapErrorToResponseFormat`: classifies a caught value into
title, code, message, details and suggestion, then renders the Markdown
error text with `isError: true`. -/
def mapErrorToResponseFormat (error : JsError)
    (issueIdOrKeyForContext jiraHostForContext : Option String) : ToolResponse :=
  let defaultSolution :=
    "Please check the details and try again. If the issue persists, ensure your Jira instance is accessible and your credentials are correct."
  let classified : String × String × String × String × String :=
    match error with
    | .validationErr _ errs path valueJson =>
      ("Validation Error", "VALIDATION_ERROR",
       "The provided input is invalid: " ++ joinWith ", " errs,
       "Path: " ++ path ++ ", Value: " ++ valueJson,
       "Please correct the input according to the validation rules and try again.")
    | .credentialsErr msg =>
      ("Authentication Error", "CREDENTIALS_MISSING", msg, "",
       "Please ensure your Jira host, email, and API token are correctly configured either in the arguments or as environment variables (JIRA_HOST, JIRA_EMAIL, JIRA_API_TOKEN).")
    | .axiosResp msg status dataErrorMessages dataErrors dataJson =>
      let jiraErrors := jsOrStr
        (match dataErrorMessages with
         | some l => joinWith ", " l
         | none => "")
        (match dataErrors with
         | some e => e
         | none => "")
      let codeSolution : String × String :=
        if status == 400 then
          ("JIRA_BAD_REQUEST", "The request was malformed. Check the provided parameters.")
        else if status == 401 then
          ("JIRA_UNAUTHORIZED", "Authentication failed. Check your Jira email and API token.")
        else if status == 403 then
          ("JIRA_FORBIDDEN", "You do not have permission to perform this action on the Jira issue.")
        else if status == 404 then
          ("JIRA_ISSUE_NOT_FOUND",
           "Issue \"" ++ jsOrOptD issueIdOrKeyForContext "N/A"
             ++ "\" could not be found. Please verify the issue ID or key.")
        else
          ("JIRA_API_ERROR", "An unexpected API error occurred. Check the Jira API status or logs.")
      ("Jira API Error (" ++ toString status ++ ")", codeSolution.1,
       "The Jira API returned an error: " ++ jsOrStr jiraErrors msg,
       "Response Data: " ++ dataJson, codeSolution.2)
    | .axiosNoResp _ =>
      ("Network Error", "NETWORK_ERROR",
       "Could not connect to Jira host at " ++ jsOrOptD jiraHostForContext "the specified host" ++ ".",
       "", "Please check your network connection and the Jira host URL.")
    | .axiosSetup msg =>
      ("Axios Error", "AXIOS_ERROR",
       "An error occurred while setting up the API request: " ++ msg, "", defaultSolution)
    | .plainErr msg =>
      ("Unexpected Application Error", "APPLICATION_ERROR",
       "An unexpected error occurred within the application.", msg,
       "Please report this error to the application maintainers.")
    | .nonErrorThrown repr0 =>
      ("Unknown Error Type", "UNKNOWN_ERROR_TYPE",
       "An entirely unexpected and unknown type of error occurred.", repr0, defaultSolution)
  let errorTitle := classified.1
  let errorCode := classified.2.1
  let errorMessage := classified.2.2.1
  let errorDetails := classified.2.2.2.1
  let errorSolution := classified.2.2.2.2
  let formattedError :=
    "## ❌ " ++ errorTitle ++ "\n\n**Code:** " ++ errorCode ++ "\n**Message:** " ++ errorMessage
      ++ (if !errorDetails.isEmpty then "\n**Details:** " ++ errorDetails else "")
      ++ "\n\n**Suggestion:** " ++ errorSolution
  { content := [formattedError], isError := true }

/-- Embeds `formatSuccessResponseMessage`: the Markdown success report
with the changed-fields bullet list and the current status/assignee. -/
def formatSuccessResponseMessage (updatedIssue : Issue)
    (updatedFieldsMessages : List String) (jiraHost : String) : String :=
  let issueLink := "https://" ++ jiraHost ++ "/browse/" ++ updatedIssue.key
  let r := "## ✅ Issue Updated Successfully\n\nIssue [" ++ updatedIssue.key ++ "](" ++ issueLink
    ++ ") has been updated."
  let r := if updatedFieldsMessages.length > 0 then
      r ++ "\n\n**Changed fields:**\n" ++ joinWith "\n" updatedFieldsMessages
    else r
  let r := match updatedIssue.fields.status with
    | some st => r ++ "\n\n**Current Status:** " ++ st.name
    | none => r
  let r := match updatedIssue.fields.assignee with
    | some a => r ++ "\n**Current Assignee:** "
        ++ (match a.displayName with
            | some d => d
            | none => "undefined")
    | none => r
  r

/-- The environment variables the tool reads. -/
structure Env where
  JIRA_HOST : Option String
  JIRA_EMAIL : Option String
  JIRA_API_TOKEN : Option String

/-- The argument bag of `jira_update_issue` (raw and validated forms
share this shape; validation is a `World` outcome). -/
structure UpdateArgsT where
  jiraHost : Option String
  email : Option String
  apiToken : Option String
  issueIdOrKey : String
  summary : Option String
  description : Option JVal
  status : Option String
  assigneeName : Option String

/-- The resolved credential triple plus derived auth header. -/
structure Creds where
  jiraHost : String
  email : String
  apiToken : String
  authHeader : String

/-- Embeds `getJiraCredentials`: argument-over-environment preference
per field (JS `||`), then `validateCredentials`, then the auth header. -/
def getJiraCredentials (args : UpdateArgsT) (env : Env) : Except JsError Creds :=
  let jiraHost := jsOrOpt args.jiraHost env.JIRA_HOST
  let email := jsOrOpt args.email env.JIRA_EMAIL
  let apiToken := jsOrOpt args.apiToken env.JIRA_API_TOKEN
  match validateCredentials jiraHost email apiToken with
  | .error m => .error (.credentialsErr m)
  | .ok _ =>
    .ok { jiraHost := jiraHost.getD "", email := email.getD "", apiToken := apiToken.getD ""
          authHeader := createAuthHeader (email.getD "") (apiToken.getD "") }

/-- One invocation's remote behaviour: the outcome of schema validation
and of each endpoint the orchestration can call (each is called at most
once per invocation).  Response bodies that the code guards against
being `null`/absent are `Option`s. -/
structure World where
  validation : Except JsError UpdateArgsT
  userSearch : Except JsError (Option (List User))
  putFields : Except JsError Unit
  getTransitions : Except JsError (Option (List Transition))
  postTransition : Except JsError Unit
  getIssue : Except JsError Issue

/-- Ghost instrumentation: which remote calls were issued and whether
the top-level error classifier produced the response. -/
structure CallLog where
  userSearchCalled : Bool := false
  putFieldsCalled : Bool := false
  getTransitionsCalled : Bool := false
  postTransitionCalled : Bool := false
  getIssueCalled : Bool := false
  errorMapped : Bool := false
deriving Repr, DecidableEq

/-- No remote call at all. -/
def noRemoteCalls (log : CallLog) : Bool :=
  !log.userSearchCalled && !log.putFieldsCalled && !log.getTransitionsCalled
    && !log.postTransitionCalled && !log.getIssueCalled

/-- The `catch` block of `updateIssue`: rebuild the issue/host context
with JS `||` fallbacks and delegate to the error classifier. -/
def updateIssueCatch (args : UpdateArgsT) (env : Env)
    (ctxKey ctxHost : Option String) (e : JsError) (log : CallLog) :
    ToolResponse × CallLog :=
  let finalIssueIdOrKey :=
    if jsTruthyOptStr ctxKey then ctxKey.getD "" else args.issueIdOrKey
  let finalJiraHost :=
    if jsTruthyOptStr ctxHost then ctxHost.getD ""
    else if jsTruthyOptStr args.jiraHost then args.jiraHost.getD ""
    else if jsTruthyOptStr env.JIRA_HOST then env.JIRA_HOST.getD ""
    else "N/A"
  (mapErrorToResponseFormat e (some finalIssueIdOrKey) (some finalJiraHost),
   { log with errorMapped := true })

/-- Step 4 of `updateIssue` (assignee resolution): when `assigneeName`
is truthy, call the user search; a found user yields the account id, a
missing user or a search error yields a warning line.  Returns the
accumulated messages, the resolved account id and the updated log. -/
def resolveAssigneeStep (w : World) (va : UpdateArgsT) (log : CallLog) :
    List String × Option String × CallLog :=
  if jsTruthyOptStr va.assigneeName then
    let name := va.assigneeName.getD ""
    let log := { log with userSearchCalled := true }
    match w.userSearch with
    | .ok data =>
      match searchJiraUserSelect data name with
      | some u => ([], some u.accountId, log)
      | none =>
        (["- ⚠️ Warning: Assignee '" ++ name
            ++ "' not found or not active. Assignee not changed."], none, log)
    | .error e =>
      (["- ⚠️ Warning: Error searching for assignee '" ++ name ++ "': "
          ++ localCatchMessage e "Unknown error during assignee search"
          ++ ". Assignee not changed."], none, log)
  else ([], none, log)

/-- Step 7 of `updateIssue` (status transition, with its local catch):
when `status` is truthy, fetch the transitions, find the target
case-insensitively, post it when found (a post failure is swallowed
into a warning), and otherwise record the not-available warning with
the `||`-defaulted list of available target names. -/
def statusTransitionStep (w : World) (va : UpdateArgsT) (msgs : List String)
    (log : CallLog) : List String × CallLog :=
  if jsTruthyOptStr va.status then
    let s := va.status.getD ""
    let log := { log with getTransitionsCalled := true }
    match w.getTransitions with
    | .ok data =>
      let transitions := data.getD []
      match findTargetTransition transitions s with
      | some t =>
        let log := { log with postTransitionCalled := true }
        match w.postTransition with
        | .ok _ =>
          (msgs ++ ["- Status changed to \"" ++ t.toStatus.name ++ "\""], log)
        | .error e =>
          (msgs ++ ["- ⚠️ Warning: Error during status transition: "
              ++ localCatchMessage e "Unknown error during status transition" ++ "."], log)
      | none =>
        let availableTransitions :=
          jsOrStr (joinWith ", " (transitions.map (fun t => t.toStatus.name))) "None available"
        (msgs ++ ["- ⚠️ Warning: Status transition to \"" ++ s
            ++ "\" not available. Available transitions: " ++ availableTransitions ++ "."], log)
    | .error e =>
      (msgs ++ ["- ⚠️ Warning: Error during status transition: "
          ++ localCatchMessage e "Unknown error during status transition" ++ "."], log)
  else (msgs, log)

/-- Steps 7-10 of `updateIssue`: the optional status transition (with
its local catch), the no-op short circuit, the lonely-assignee warning,
the final snapshot fetch, and the success rendering. -/
def updateIssueAfterFields (args : UpdateArgsT) (env : Env) (w : World)
    (va : UpdateArgsT) (creds : Creds) (fieldsToUpdate : JiraUpdateIssuePayloadFields)
    (msgs0 : List String) (log0 : CallLog) : ToolResponse × CallLog :=
  let statusStep := statusTransitionStep w va msgs0 log0
  let msgs := statusStep.1
  let log := statusStep.2
  if fieldsEmpty fieldsToUpdate && !jsTruthyOptStr va.status
      && !jsTruthyOptStr va.assigneeName then
    ({ content := ["No update parameters provided. No changes made to the issue."],
       isError := false }, log)
  else
    let msgs :=
      if msgs.isEmpty && jsTruthyOptStr va.assigneeName && fieldsEmpty fieldsToUpdate
          && !jsTruthyOptStr va.status then
        msgs ++ ["- ⚠️ Warning: Assignee '" ++ va.assigneeName.getD ""
            ++ "' not found or not active. No other updates performed."]
      else msgs
    let log := { log with getIssueCalled := true }
    match w.getIssue with
    | .error e =>
      updateIssueCatch args env (some va.issueIdOrKey) (some creds.jiraHost) e log
    | .ok updatedIssue =>
      ({ content := [formatSuccessResponseMessage updatedIssue msgs creds.jiraHost],
         isError := false }, log)

/-- Embeds `updateIssue` (`src/tools/updateIssue.ts`): schema
validation, credential resolution, optional assignee resolution, sparse
field update, optional status transition, no-op short circuit, final
snapshot fetch and rendering, with every uncaught throw routed through
`mapErrorToResponseFormat`. -/
def updateIssue (args : UpdateArgsT) (env : Env) (w : World) : ToolResponse × CallLog :=
  let log : CallLog := {}
  match w.validation with
  | .error e => updateIssueCatch args env none none e log
  | .ok va =>
    match getJiraCredentials va env with
    | .error e => updateIssueCatch args env (some va.issueIdOrKey) none e log
    | .ok creds =>
      let assigneeStep := resolveAssigneeStep w va log
      let msgs := assigneeStep.1
      let assigneeAccountId := assigneeStep.2.1
      let log := assigneeStep.2.2
      let fieldsToUpdate :=
        buildJiraUpdateFieldsPayload va.summary va.description assigneeAccountId toADF
      if !fieldsEmpty fieldsToUpdate then
        let log := { log with putFieldsCalled := true }
        match w.putFields with
        | .error e =>
          updateIssueCatch args env (some va.issueIdOrKey) (some creds.jiraHost) e log
        | .ok _ =>
          let msgs := msgs
            ++ (if fieldsToUpdate.summary.isSome then ["- Summary updated"] else [])
            ++ (if fieldsToUpdate.description.isSome then ["- Description updated"] else [])
            ++ (if fieldsToUpdate.assignee.isSome then ["- Assignee updated"] else [])
          updateIssueAfterFields args env w va creds fieldsToUpdate msgs log
      else
        updateIssueAfterFields args env w va creds fieldsToUpdate msgs log

theorem build_summary_eq (s : Option String) (d : Option JVal) (a : Option String)
    (c : JVal → JVal) : (buildJiraUpdateFieldsPayload s d a c).summary = s := rfl

theorem build_description_eq (s : Option String) (d : Option JVal) (a : Option String)
    (c : JVal → JVal) : (buildJiraUpdateFieldsPayload s d a c).description = d.map c := rfl

/-- C1. The spec says the ADF normalizer validates an object recursively
(per the §3 invariant) and falls back to the canonical empty document
for every other object.  The source `toADF` only performs the shallow
check `type === "doc" && version === 1 && Array.isArray(content)`: the
object below has an invalid child node (`null`), fails the recursive
invariant, and is still returned unchanged instead of being replaced by
the canonical empty document. -/
theorem toADF_recursive_claim_counterexample :
    isObjectNonNullB (JVal.obj [("type", .str "doc"), ("version", .num 1),
        ("content", .arr [.null])]) = true
    ∧ recursiveDocValid (JVal.obj [("type", .str "doc"), ("version", .num 1),
        ("content", .arr [.null])]) = false
    ∧ toADF (JVal.obj [("type", .str "doc"), ("version", .num 1),
        ("content", .arr [.null])])
      = JVal.obj [("type", .str "doc"), ("version", .num 1), ("content", .arr [.null])]
    ∧ toADF (JVal.obj [("type", .str "doc"), ("version", .num 1),
        ("content", .arr [.null])]) ≠ emptyADFDoc := by
  refine ⟨rfl, ?_, rfl, ?_⟩
  · simp [recursiveDocValid, isValidADFNodeArray, isObjectNonNullB, isObjectTypeB,
      getField, List.lookup, isStrEqB, isNumEqB, isArrB]
  · have : toADF (JVal.obj [("type", .str "doc"), ("version", .num 1),
        ("content", .arr [.null])])
        = JVal.obj [("type", .str "doc"), ("version", .num 1), ("content", .arr [.null])] := rfl
    rw [this]
    simp [emptyADFDoc]

/-- C1 (amended). For every non-null object: a recursively valid rich
document passes the shallow check; every object passing the shallow
check (`type === "doc"`, `version === 1`, `content` an array) is
returned unchanged — in particular every recursively valid document —
and every object failing the shallow check maps to the canonical empty
document.  Totality of the normalizer is by construction. -/
theorem toADF_object_spec (v : JVal) (hobj : isObjectNonNullB v = true) :
    (recursiveDocValid v = true → shallowADFDocCheck v = true)
    ∧ (shallowADFDocCheck v = true → toADF v = v)
    ∧ (shallowADFDocCheck v = false → toADF v = emptyADFDoc) := by
  refine ⟨?_, ?_, ?_⟩
  · intro h
    simp [recursiveDocValid] at h
    simp [shallowADFDocCheck]
    exact h.1
  · intro h
    cases v with
    | obj kvs => simp [toADF, jsTruthy, h]
    | arr l => simp [toADF, jsTruthy, h]
    | null => simp [isObjectNonNullB] at hobj
    | str s => simp [isObjectNonNullB, isObjectTypeB] at hobj
    | num n => simp [isObjectNonNullB, isObjectTypeB] at hobj
    | bool b => simp [isObjectNonNullB, isObjectTypeB] at hobj
    | undefined => simp [isObjectNonNullB, isObjectTypeB] at hobj
  · intro h
    cases v with
    | obj kvs => simp [toADF, jsTruthy, h]
    | arr l => simp [toADF, jsTruthy, h]
    | null => simp [isObjectNonNullB] at hobj
    | str s => simp [isObjectNonNullB, isObjectTypeB] at hobj
    | num n => simp [isObjectNonNullB, isObjectTypeB] at hobj
    | bool b => simp [isObjectNonNullB, isObjectTypeB] at hobj
    | undefined => simp [isObjectNonNullB, isObjectTypeB] at hobj

theorem toADF_object_spec_witness :
    toADF emptyADFDoc = emptyADFDoc
    ∧ toADF (JVal.obj []) = emptyADFDoc := by
  constructor
  · exact (toADF_object_spec emptyADFDoc (by decide)).2.1 (by decide)
  · exact (toADF_object_spec (JVal.obj []) (by decide)).2.2 (by decide)

/-- C2. The spec claims that every plain string, including the empty
string, becomes a one-paragraph document holding the string as a text
leaf.  The source's `if (!description)` guard catches the empty string
(falsy in JavaScript) first, producing the canonical empty document —
a paragraph with no text leaf at all. -/
theorem toADF_empty_string_counterexample :
    toADF (.str "") = emptyADFDoc ∧ toADF (.str "") ≠ stringADFDoc "" := by
  refine ⟨rfl, ?_⟩
  have : toADF (.str "") = emptyADFDoc := rfl
  rw [this]
  simp [emptyADFDoc, stringADFDoc]

/-- C2 (amended). Every non-empty plain string becomes a document with
exactly one paragraph node containing exactly one text leaf holding the
string verbatim; the empty string instead yields the canonical empty
document. -/
theorem toADF_string_spec (s : String) :
    (s ≠ "" → toADF (.str s) = stringADFDoc s)
    ∧ (s = "" → toADF (.str s) = emptyADFDoc) := by
  constructor
  · intro h
    have hne : s.isEmpty = false := by
      cases he : s.isEmpty
      · rfl
      · exact absurd ((String.isEmpty_iff s).mp he) h
    simp [toADF, jsTruthy, hne, shallowADFDocCheck, isObjectTypeB]
  · intro h
    subst h
    rfl

theorem toADF_string_spec_witness :
    toADF (.str "hello") = stringADFDoc "hello"
    ∧ toADF (.str "") = emptyADFDoc := by
  constructor
  · exact (toADF_string_spec "hello").1 (by decide)
  · exact (toADF_string_spec "").2 rfl

/-- C5. For every user-search result list: an empty list resolves to
"not found"; when some listed user is an active case-insensitive
display-name match for the query, such a user is returned; otherwise the
first active user in the list's order is returned (hence "not found"
when no listed user is active).  The resolution is a total function, so
it never throws. -/
theorem searchJiraUserSelect_spec (users : List User) (q : String) :
    (users = [] → searchJiraUserSelect (some users) q = none)
    ∧ ((∃ u ∈ users, ((match u.displayName with
          | some d => jsToLowerCase d == jsToLowerCase q
          | none => false) && u.active) = true) →
        ∃ u, searchJiraUserSelect (some users) q = some u ∧ u ∈ users
          ∧ ((match u.displayName with
              | some d => jsToLowerCase d == jsToLowerCase q
              | none => false) && u.active) = true)
    ∧ ((∀ u ∈ users, ((match u.displayName with
          | some d => jsToLowerCase d == jsToLowerCase q
          | none => false) && u.active) = false) →
        searchJiraUserSelect (some users) q = users.find? (fun u => u.active))
    ∧ ((∀ u ∈ users, u.active = false) → searchJiraUserSelect (some users) q = none) := by
  refine ⟨?_, ?_, ?_, ?_⟩
  · rintro rfl
    rfl
  · intro hex
    cases users with
    | nil =>
      rcases hex with ⟨u, hu, _⟩
      cases hu
    | cons a l =>
      rcases hex with ⟨u, hu, hp⟩
      have hsome : ((a :: l).find? (fun u => (match u.displayName with
          | some d => jsToLowerCase d == jsToLowerCase q
          | none => false) && u.active)).isSome := List.find?_isSome.mpr ⟨u, hu, hp⟩
      cases hfind : (a :: l).find? (fun u => (match u.displayName with
          | some d => jsToLowerCase d == jsToLowerCase q
          | none => false) && u.active) with
      | none => rw [hfind] at hsome; cases hsome
      | some v =>
        have hpv := List.find?_some hfind
        exact ⟨v, by simp [searchJiraUserSelect, hfind], List.mem_of_find?_eq_some hfind, hpv⟩
  · intro hall
    cases users with
    | nil => rfl
    | cons a l =>
      have hnone : ((a :: l).find? (fun u => (match u.displayName with
          | some d => jsToLowerCase d == jsToLowerCase q
          | none => false) && u.active)) = none := by
        rw [List.find?_eq_none]
        intro x hx
        simp [hall x hx]
      simp [searchJiraUserSelect, hnone]
  · intro hall
    cases users with
    | nil => rfl
    | cons a l =>
      have hnone1 : ((a :: l).find? (fun u => (match u.displayName with
          | some d => jsToLowerCase d == jsToLowerCase q
          | none => false) && u.active)) = none := by
        rw [List.find?_eq_none]
        intro x hx
        simp [hall x hx]
      have hnone2 : ((a :: l).find? (fun u => u.active)) = none := by
        rw [List.find?_eq_none]
        intro x hx
        simp [hall x hx]
      simp [searchJiraUserSelect, hnone1, hnone2]

theorem searchJiraUserSelect_spec_witness :
    searchJiraUserSelect (some []) "Anyone" = none
    ∧ searchJiraUserSelect
        (some [{ accountId := "a1", displayName := some "other person", active := true },
               { accountId := "a2", displayName := some "Test User", active := true }])
        "test user"
      = some { accountId := "a2", displayName := some "Test User", active := true } := by
  constructor
  · exact (searchJiraUserSelect_spec [] "Anyone").1 rfl
  · have h := ((searchJiraUserSelect_spec
        [{ accountId := "a1", displayName := some "other person", active := true },
         { accountId := "a2", displayName := some "Test User", active := true }] "test user").2.1
      (by decide))
    rcases h with ⟨u, hu, hmem, hp⟩
    rw [hu]
    have : u = { accountId := "a2", displayName := some "Test User", active := true } := by
      cases hmem with
      | head => exact absurd hp (by decide)
      | tail _ h2 =>
        cases h2 with
        | head => rfl
        | tail _ h3 => cases h3
    rw [this]

theorem validateCredentials_cases (h e t : Option String) :
    (jsTruthyOptStr h = true ∧ jsTruthyOptStr e = true ∧ jsTruthyOptStr t = true
      ∧ validateCredentials h e t = .ok ())
    ∨ (∃ m, validateCredentials h e t = .error m
        ∧ strContains m "Jira host" = !jsTruthyOptStr h
        ∧ strContains m "email" = !jsTruthyOptStr e
        ∧ strContains m "API token" = !jsTruthyOptStr t
        ∧ (jsTruthyOptStr h = false ∨ jsTruthyOptStr e = false ∨ jsTruthyOptStr t = false)) := by
  cases hb1 : jsTruthyOptStr h <;> cases hb2 : jsTruthyOptStr e <;> cases hb3 : jsTruthyOptStr t
  · refine Or.inr ⟨"Missing required Jira credentials: Jira host, email, API token. Please provide them in the request or set them as environment variables (JIRA_HOST, JIRA_EMAIL, JIRA_API_TOKEN).", ?_, ?_, ?_, ?_, ?_⟩ <;>
      (try simp only [validateCredentials, hb1, hb2, hb3, joinWith]) <;> (first | rfl | decide)
  · refine Or.inr ⟨"Missing required Jira credentials: Jira host, email. Please provide them in the request or set them as environment variables (JIRA_HOST, JIRA_EMAIL, JIRA_API_TOKEN).", ?_, ?_, ?_, ?_, ?_⟩ <;>
      (try simp only [validateCredentials, hb1, hb2, hb3, joinWith]) <;> (first | rfl | decide)
  · refine Or.inr ⟨"Missing required Jira credentials: Jira host, API token. Please provide them in the request or set them as environment variables (JIRA_HOST, JIRA_EMAIL, JIRA_API_TOKEN).", ?_, ?_, ?_, ?_, ?_⟩ <;>
      (try simp only [validateCredentials, hb1, hb2, hb3, joinWith]) <;> (first | rfl | decide)
  · refine Or.inr ⟨"Missing required Jira credentials: Jira host. Please provide them in the request or set them as environment variables (JIRA_HOST, JIRA_EMAIL, JIRA_API_TOKEN).", ?_, ?_, ?_, ?_, ?_⟩ <;>
      (try simp only [validateCredentials, hb1, hb2, hb3, joinWith]) <;> (first | rfl | decide)
  · refine Or.inr ⟨"Missing required Jira credentials: email, API token. Please provide them in the request or set them as environment variables (JIRA_HOST, JIRA_EMAIL, JIRA_API_TOKEN).", ?_, ?_, ?_, ?_, ?_⟩ <;>
      (try simp only [validateCredentials, hb1, hb2, hb3, joinWith]) <;> (first | rfl | decide)
  · refine Or.inr ⟨"Missing required Jira credentials: email. Please provide them in the request or set them as environment variables (JIRA_HOST, JIRA_EMAIL, JIRA_API_TOKEN).", ?_, ?_, ?_, ?_, ?_⟩ <;>
      (try simp only [validateCredentials, hb1, hb2, hb3, joinWith]) <;> (first | rfl | decide)
  · refine Or.inr ⟨"Missing required Jira credentials: API token. Please provide them in the request or set them as environment variables (JIRA_HOST, JIRA_EMAIL, JIRA_API_TOKEN).", ?_, ?_, ?_, ?_, ?_⟩ <;>
      (try simp only [validateCredentials, hb1, hb2, hb3, joinWith]) <;> (first | rfl | decide)
  · exact Or.inl ⟨rfl, rfl, rfl, by simp [validateCredentials, hb1, hb2, hb3]⟩

/-- C7. After preferring the explicit argument over the environment
default per field (JS `||`), credential resolution fails — always with a
`CredentialsError` — iff at least one resolved field is missing (falsy),
and the error message mentions each of the three field names exactly
when that field is missing. -/
theorem getJiraCredentials_spec (args : UpdateArgsT) (env : Env) :
    ((∃ c, getJiraCredentials args env = .ok c) ↔
      (jsTruthyOptStr (jsOrOpt args.jiraHost env.JIRA_HOST) = true
        ∧ jsTruthyOptStr (jsOrOpt args.email env.JIRA_EMAIL) = true
        ∧ jsTruthyOptStr (jsOrOpt args.apiToken env.JIRA_API_TOKEN) = true))
    ∧ (∀ e, getJiraCredentials args env = .error e → ∃ m, e = .credentialsErr m)
    ∧ (∀ m, getJiraCredentials args env = .error (.credentialsErr m) →
        strContains m "Jira host" = !jsTruthyOptStr (jsOrOpt args.jiraHost env.JIRA_HOST)
        ∧ strContains m "email" = !jsTruthyOptStr (jsOrOpt args.email env.JIRA_EMAIL)
        ∧ strContains m "API token"
            = !jsTruthyOptStr (jsOrOpt args.apiToken env.JIRA_API_TOKEN)) := by
  rcases validateCredentials_cases (jsOrOpt args.jiraHost env.JIRA_HOST)
      (jsOrOpt args.email env.JIRA_EMAIL) (jsOrOpt args.apiToken env.JIRA_API_TOKEN) with
    ⟨h1, h2, h3, hok⟩ | ⟨m0, herr, hc1, hc2, hc3, hmiss⟩
  · have hres : ∃ c, getJiraCredentials args env = .ok c := by
      simp only [getJiraCredentials, hok]
      exact ⟨_, rfl⟩
    refine ⟨⟨fun _ => ⟨h1, h2, h3⟩, fun _ => hres⟩, ?_, ?_⟩
    · intro e he
      rcases hres with ⟨c, hc⟩
      rw [hc] at he
      cases he
    · intro m hm
      rcases hres with ⟨c, hc⟩
      rw [hc] at hm
      cases hm
  · have hres : getJiraCredentials args env = .error (.credentialsErr m0) := by
      simp only [getJiraCredentials, herr]
    refine ⟨⟨?_, ?_⟩, ?_, ?_⟩
    · rintro ⟨c, hc⟩
      rw [hres] at hc
      cases hc
    · rintro ⟨t1, t2, t3⟩
      rcases hmiss with hx | hx | hx <;> simp [hx] at t1 t2 t3
    · intro e he
      rw [hres] at he
      refine ⟨m0, ?_⟩
      cases he
      rfl
    · intro m hm
      rw [hres] at hm
      have : m0 = m := by
        cases hm
        rfl
      subst this
      exact ⟨hc1, hc2, hc3⟩

theorem getJiraCredentials_spec_witness :
    ∃ m, getJiraCredentials
        { jiraHost := some "", email := some "e@x.com", apiToken := none,
          issueIdOrKey := "T-1", summary := none, description := none,
          status := none, assigneeName := none }
        { JIRA_HOST := none, JIRA_EMAIL := none, JIRA_API_TOKEN := some "tok" }
      = .error (.credentialsErr m)
      ∧ strContains m "Jira host" = true
      ∧ strContains m "email" = false
      ∧ strContains m "API token" = false := by
  have h2 := (getJiraCredentials_spec
    { jiraHost := some "", email := some "e@x.com", apiToken := none,
      issueIdOrKey := "T-1", summary := none, description := none,
      status := none, assigneeName := none }
    { JIRA_HOST := none, JIRA_EMAIL := none, JIRA_API_TOKEN := some "tok" }).2.2
    "Missing required Jira credentials: Jira host. Please provide them in the request or set them as environment variables (JIRA_HOST, JIRA_EMAIL, JIRA_API_TOKEN)." rfl
  refine ⟨"Missing required Jira credentials: Jira host. Please provide them in the request or set them as environment variables (JIRA_HOST, JIRA_EMAIL, JIRA_API_TOKEN).", rfl, ?_, ?_, ?_⟩
  · rw [h2.1]
    decide
  · rw [h2.2.1]
    decide
  · rw [h2.2.2]
    decide

/-- C8. In the built fields payload, the summary key is present exactly
when a summary was provided (an empty string is preserved as a value);
the description key is present exactly when a description was provided,
holding its ADF-normalized form; and the assignee key is present exactly
when a non-empty resolved account id was supplied, holding that id. -/
theorem buildJiraUpdateFieldsPayload_spec (s : Option String) (d : Option JVal)
    (a : Option String) :
    ((buildJiraUpdateFieldsPayload s d a toADF).summary = s)
    ∧ ((buildJiraUpdateFieldsPayload s d a toADF).description = d.map toADF)
    ∧ (((buildJiraUpdateFieldsPayload s d a toADF).assignee).isSome = true ↔
        ∃ x, a = some x ∧ x ≠ "")
    ∧ (∀ x, (buildJiraUpdateFieldsPayload s d a toADF).assignee = some x →
        a = some x ∧ x ≠ "") := by
  refine ⟨rfl, rfl, ?_, ?_⟩
  · cases a with
    | none => simp [buildJiraUpdateFieldsPayload]
    | some x =>
      cases hx : x.isEmpty with
      | true =>
        have hxe : x = "" := (String.isEmpty_iff x).mp hx
        subst hxe
        simp [buildJiraUpdateFieldsPayload]
        rfl
      | false =>
        have hxe : x ≠ "" := by
          intro hc
          subst hc
          cases hx
        simp [buildJiraUpdateFieldsPayload, hx]
        exact hxe
  · intro x hx
    cases a with
    | none => cases hx
    | some y =>
      cases hy : y.isEmpty with
      | true =>
        simp [buildJiraUpdateFieldsPayload, hy] at hx
      | false =>
        simp [buildJiraUpdateFieldsPayload, hy] at hx
        subst hx
        refine ⟨rfl, ?_⟩
        intro hc
        subst hc
        cases hy

theorem buildJiraUpdateFieldsPayload_spec_witness :
    (buildJiraUpdateFieldsPayload (some "") (some (.str "desc")) (some "acct-1") toADF).summary
        = some ""
    ∧ (buildJiraUpdateFieldsPayload (some "") (some (.str "desc")) (some "acct-1") toADF).description
        = some (stringADFDoc "desc")
    ∧ (buildJiraUpdateFieldsPayload (some "") (some (.str "desc")) (some "acct-1") toADF).assignee
        = some "acct-1"
    ∧ (buildJiraUpdateFieldsPayload none none (some "") toADF).assignee = none := by
  have h := buildJiraUpdateFieldsPayload_spec (some "") (some (.str "desc")) (some "acct-1")
  refine ⟨h.1, ?_, rfl, rfl⟩
  rw [h.2.1]
  rfl

theorem mapErrorToResponseFormat_shape (e : JsError) (k h : Option String) :
    (mapErrorToResponseFormat e k h).content.length = 1
    ∧ (mapErrorToResponseFormat e k h).isError = true := by
  cases e <;> simp [mapErrorToResponseFormat]

theorem updateIssueCatch_log (args : UpdateArgsT) (env : Env) (ck ch : Option String)
    (e : JsError) (log : CallLog) :
    (updateIssueCatch args env ck ch e log).2 = { log with errorMapped := true } := rfl

theorem updateIssueCatch_shape (args : UpdateArgsT) (env : Env) (ck ch : Option String)
    (e : JsError) (log : CallLog) :
    (updateIssueCatch args env ck ch e log).1.content.length = 1
    ∧ (updateIssueCatch args env ck ch e log).1.isError = true := by
  unfold updateIssueCatch
  exact mapErrorToResponseFormat_shape e _ _

theorem resolveAssigneeStep_log (w : World) (va : UpdateArgsT) (log : CallLog) :
    (resolveAssigneeStep w va log).2.2
      = { log with userSearchCalled :=
            log.userSearchCalled || jsTruthyOptStr va.assigneeName } := by
  unfold resolveAssigneeStep
  cases hts : jsTruthyOptStr va.assigneeName with
  | false => simp
  | true =>
    simp only [if_true]
    cases w.userSearch with
    | error e => simp
    | ok data =>
      cases hsel : searchJiraUserSelect data (va.assigneeName.getD "") with
      | none => simp [hsel]
      | some u => simp [hsel]

theorem statusTransitionStep_log (w : World) (va : UpdateArgsT) (msgs : List String)
    (log : CallLog) :
    ((statusTransitionStep w va msgs log).2.errorMapped = log.errorMapped)
    ∧ ((statusTransitionStep w va msgs log).2.getIssueCalled = log.getIssueCalled)
    ∧ ((statusTransitionStep w va msgs log).2.userSearchCalled = log.userSearchCalled)
    ∧ ((statusTransitionStep w va msgs log).2.putFieldsCalled = log.putFieldsCalled) := by
  unfold statusTransitionStep
  cases hts : jsTruthyOptStr va.status with
  | false => simp
  | true =>
    simp only [if_true]
    cases w.getTransitions with
    | error e => simp
    | ok data =>
      cases hft : findTargetTransition (data.getD []) (va.status.getD "") with
      | none => simp [hft]
      | some t =>
        cases hpt : w.postTransition with
        | error e => simp [hft, hpt]
        | ok u => simp [hft, hpt]

theorem updateIssueAfterFields_shape (args : UpdateArgsT) (env : Env) (w : World)
    (va : UpdateArgsT) (creds : Creds) (f : JiraUpdateIssuePayloadFields)
    (msgs : List String) (log : CallLog) (hlog : log.errorMapped = false) :
    (updateIssueAfterFields args env w va creds f msgs log).1.content.length = 1
    ∧ ((updateIssueAfterFields args env w va creds f msgs log).1.isError
        = (updateIssueAfterFields args env w va creds f msgs log).2.errorMapped) := by
  have hss := (statusTransitionStep_log w va msgs log).1
  unfold updateIssueAfterFields
  by_cases hcond : (fieldsEmpty f && !jsTruthyOptStr va.status
      && !jsTruthyOptStr va.assigneeName) = true
  · simp only [hcond, if_true]
    simp [hss, hlog]
  · rw [Bool.not_eq_true] at hcond
    simp only [hcond, Bool.false_eq_true, if_false]
    cases hget : w.getIssue with
    | error e =>
      refine ⟨(updateIssueCatch_shape args env _ _ e _).1, ?_⟩
      rw [(updateIssueCatch_shape args env _ _ e _).2, updateIssueCatch_log]
    | ok issue =>
      simp [hss, hlog]

theorem updateIssueAfterFields_fetch_error (args : UpdateArgsT) (env : Env) (w : World)
    (va : UpdateArgsT) (creds : Creds) (f : JiraUpdateIssuePayloadFields)
    (msgs : List String) (log : CallLog) (e : JsError)
    (hcond : (fieldsEmpty f && !jsTruthyOptStr va.status
        && !jsTruthyOptStr va.assigneeName) = false)
    (hfetch : w.getIssue = .error e) :
    (updateIssueAfterFields args env w va creds f msgs log).1.isError = true
    ∧ (updateIssueAfterFields args env w va creds f msgs log).2.getIssueCalled = true
    ∧ (updateIssueAfterFields args env w va creds f msgs log).2.errorMapped = true := by
  unfold updateIssueAfterFields
  simp only [hcond, Bool.false_eq_true, if_false, hfetch]
  refine ⟨(updateIssueCatch_shape args env _ _ e _).2, ?_, ?_⟩ <;>
    rw [updateIssueCatch_log]

/-- C10. For every argument bag, environment and remote behaviour
(whatever each call returns or throws, `Error` or not), `updateIssue`
returns normally with the shape `{content: [one text item], isError}`,
and `isError` is true exactly when the response was produced by the
top-level error classifier. -/
theorem updateIssue_shape_spec (args : UpdateArgsT) (env : Env) (w : World) :
    (updateIssue args env w).1.content.length = 1
    ∧ ((updateIssue args env w).1.isError = (updateIssue args env w).2.errorMapped) := by
  unfold updateIssue
  cases hval : w.validation with
  | error e =>
    dsimp only
    refine ⟨(updateIssueCatch_shape args env _ _ e _).1, ?_⟩
    rw [(updateIssueCatch_shape args env _ _ e _).2, updateIssueCatch_log]
  | ok va =>
    dsimp only
    cases hcred : getJiraCredentials va env with
    | error e =>
      dsimp only
      refine ⟨(updateIssueCatch_shape args env _ _ e _).1, ?_⟩
      rw [(updateIssueCatch_shape args env _ _ e _).2, updateIssueCatch_log]
    | ok creds =>
      dsimp only
      have hstep := resolveAssigneeStep_log w va {}
      have hstepMapped : (resolveAssigneeStep w va {}).2.2.errorMapped = false := by
        rw [hstep]
      by_cases hf : (!fieldsEmpty (buildJiraUpdateFieldsPayload va.summary va.description
          (resolveAssigneeStep w va {}).2.1 toADF)) = true
      · simp only [hf, if_true]
        cases hput : w.putFields with
        | error e =>
          refine ⟨(updateIssueCatch_shape args env _ _ e _).1, ?_⟩
          rw [(updateIssueCatch_shape args env _ _ e _).2, updateIssueCatch_log]
        | ok u =>
          exact updateIssueAfterFields_shape args env w va creds _ _ _
            (by simp [hstepMapped])
      · rw [Bool.not_eq_true] at hf
        simp only [hf, Bool.false_eq_true, if_false]
        exact updateIssueAfterFields_shape args env w va creds _ _ _ hstepMapped

/-- C3. When schema validation and credential resolution succeed and
none of summary, description, status or assigneeName is supplied,
`updateIssue` makes no remote call at all and reports the fixed no-op
text with `isError: false`. -/
theorem updateIssue_noop_spec (args : UpdateArgsT) (env : Env) (w : World)
    (va : UpdateArgsT) (creds : Creds)
    (hval : w.validation = .ok va)
    (hcred : getJiraCredentials va env = .ok creds)
    (hsum : va.summary = none) (hdesc : va.description = none)
    (hstat : va.status = none) (hassign : va.assigneeName = none) :
    (updateIssue args env w).1
      = { content := ["No update parameters provided. No changes made to the issue."],
          isError := false }
    ∧ noRemoteCalls (updateIssue args env w).2 = true := by
  have hred : updateIssue args env w
      = ({ content := ["No update parameters provided. No changes made to the issue."],
           isError := false }, {}) := by
    simp only [updateIssue, hval, hcred]
    have h1 : resolveAssigneeStep w va ({} : CallLog) = ([], none, {}) := by
      simp [resolveAssigneeStep, hassign, jsTruthyOptStr]
    rw [h1]
    rw [hsum, hdesc]
    simp only [buildJiraUpdateFieldsPayload, Option.map_none', fieldsEmpty, Option.isNone_none,
      Bool.and_self, Bool.not_true, Bool.false_eq_true, if_false]
    simp only [updateIssueAfterFields, statusTransitionStep, hstat, jsTruthyOptStr,
      Bool.false_eq_true, if_false, Bool.not_false, Bool.and_self]
    simp [hassign, fieldsEmpty]
  rw [hred]
  exact ⟨rfl, rfl⟩

theorem fieldsEmpty_build_true {va : UpdateArgsT} {acc : Option String}
    (h : fieldsEmpty (buildJiraUpdateFieldsPayload va.summary va.description acc toADF) = true) :
    va.summary = none ∧ va.description = none := by
  simp only [fieldsEmpty, buildJiraUpdateFieldsPayload, Bool.and_eq_true] at h
  constructor
  · cases hs : va.summary with
    | none => rfl
    | some s =>
      exfalso
      rw [hs] at h
      simp at h
  · cases hd : va.description with
    | none => rfl
    | some d =>
      exfalso
      rw [hd] at h
      simp at h

/-- C4. Whenever `updateIssue` reaches the final issue-snapshot fetch
(at least one of the four optional parameters was supplied and neither
validation, credential resolution nor the fields PUT threw) and that
fetch throws, the whole operation returns an error response rather than
a success report, even though the earlier mutations succeeded. -/
theorem updateIssue_final_fetch_error_spec (args : UpdateArgsT) (env : Env) (w : World)
    (va : UpdateArgsT) (creds : Creds) (e : JsError)
    (hval : w.validation = .ok va)
    (hcred : getJiraCredentials va env = .ok creds)
    (hput : w.putFields = .ok ())
    (hreq : jsTruthyOptStr va.status = true ∨ jsTruthyOptStr va.assigneeName = true
        ∨ va.summary.isSome = true ∨ va.description.isSome = true)
    (hfetch : w.getIssue = .error e) :
    (updateIssue args env w).1.isError = true
    ∧ (updateIssue args env w).2.getIssueCalled = true := by
  simp only [updateIssue, hval, hcred]
  cases hfe : fieldsEmpty (buildJiraUpdateFieldsPayload va.summary va.description
      (resolveAssigneeStep w va ({} : CallLog)).2.1 toADF) with
  | false =>
    simp only [hfe, Bool.not_false, if_true, hput]
    have hcond : (fieldsEmpty (buildJiraUpdateFieldsPayload va.summary va.description
        (resolveAssigneeStep w va ({} : CallLog)).2.1 toADF) && !jsTruthyOptStr va.status
        && !jsTruthyOptStr va.assigneeName) = false := by
      simp [hfe]
    exact ⟨(updateIssueAfterFields_fetch_error _ _ _ _ _ _ _ _ _ hcond hfetch).1,
      (updateIssueAfterFields_fetch_error _ _ _ _ _ _ _ _ _ hcond hfetch).2.1⟩
  | true =>
    simp only [hfe, Bool.not_true, Bool.false_eq_true, if_false]
    have hnone := fieldsEmpty_build_true hfe
    have hcond : (fieldsEmpty (buildJiraUpdateFieldsPayload va.summary va.description
        (resolveAssigneeStep w va ({} : CallLog)).2.1 toADF) && !jsTruthyOptStr va.status
        && !jsTruthyOptStr va.assigneeName) = false := by
      rcases hreq with hx | hx | hx | hx
      · simp [hx]
      · simp [hx]
      · rw [hnone.1] at hx
        cases hx
      · rw [hnone.2] at hx
        cases hx
    exact ⟨(updateIssueAfterFields_fetch_error _ _ _ _ _ _ _ _ _ hcond hfetch).1,
      (updateIssueAfterFields_fetch_error _ _ _ _ _ _ _ _ _ hcond hfetch).2.1⟩

/-- A concrete environment for witness scenarios. -/
def envFix : Env :=
  { JIRA_HOST := some "h.example.com", JIRA_EMAIL := some "e@x.com",
    JIRA_API_TOKEN := some "tok" }

/-- The credentials `getJiraCredentials` resolves under `envFix` with no
explicit arguments. -/
def credsFix : Creds :=
  { jiraHost := "h.example.com", email := "e@x.com", apiToken := "tok",
    authHeader := createAuthHeader "e@x.com" "tok" }

/-- A concrete issue snapshot for witness scenarios. -/
def issueFix : Issue :=
  { id := "10001", key := "TEST-123",
    fields := { summary := some "Initial Summary",
                status := some { id := "1", name := "To Do" }, assignee := none } }

/-- An argument bag supplying only the issue key. -/
def argsNoopFix : UpdateArgsT :=
  { jiraHost := none, email := none, apiToken := none, issueIdOrKey := "TEST-123",
    summary := none, description := none, status := none, assigneeName := none }

/-- A world where every remote call succeeds benignly. -/
def wOkFix : World :=
  { validation := .ok argsNoopFix, userSearch := .ok (some []), putFields := .ok (),
    getTransitions := .ok (some []), postTransition := .ok (), getIssue := .ok issueFix }

theorem updateIssue_noop_spec_witness :
    (updateIssue argsNoopFix envFix wOkFix).1
      = { content := ["No update parameters provided. No changes made to the issue."],
          isError := false }
    ∧ noRemoteCalls (updateIssue argsNoopFix envFix wOkFix).2 = true :=
  updateIssue_noop_spec argsNoopFix envFix wOkFix argsNoopFix credsFix
    rfl rfl rfl rfl rfl rfl

/-- The no-op argument bag with a summary added. -/
def argsSummaryFix : UpdateArgsT :=
  { argsNoopFix with summary := some "Updated Summary" }

/-- A world where the field update succeeds but the final snapshot
fetch throws a network error. -/
def wFetchFailFix : World :=
  { validation := Except.ok argsSummaryFix, userSearch := Except.ok (some []),
    putFields := Except.ok (), getTransitions := Except.ok (some []),
    postTransition := Except.ok (),
    getIssue := Except.error (JsError.axiosNoResp "Network Error") }

theorem updateIssue_final_fetch_error_spec_witness :
    (updateIssue argsSummaryFix envFix wFetchFailFix).1.isError = true
    ∧ (updateIssue argsSummaryFix envFix wFetchFailFix).2.getIssueCalled = true :=
  updateIssue_final_fetch_error_spec argsSummaryFix envFix wFetchFailFix argsSummaryFix
    credsFix (.axiosNoResp "Network Error") rfl rfl rfl
    (Or.inr (Or.inr (Or.inl rfl))) rfl

theorem formatSuccess_contains (issue : Issue) (msgs : List String) (host m : String)
    (hm : m ∈ msgs) :
    strContains (formatSuccessResponseMessage issue msgs host) m = true := by
  have hj : strContains (joinWith "\n" msgs) m = true := strContains_joinWith "\n" hm
  have hlen : msgs.length > 0 := by
    cases msgs with
    | nil => cases hm
    | cons a l => simp
  unfold formatSuccessResponseMessage
  simp only [hlen, if_true]
  have hcore : strContains
      (("## ✅ Issue Updated Successfully\n\nIssue [" ++ issue.key ++ "]("
          ++ ("https://" ++ host ++ "/browse/" ++ issue.key) ++ ") has been updated.")
        ++ "\n\n**Changed fields:**\n" ++ joinWith "\n" msgs) m = true :=
    strContains_of_append_right _ hj
  cases hst : issue.fields.status with
  | none =>
    cases has : issue.fields.assignee with
    | none => exact hcore
    | some a =>
      exact strContains_of_append_left _ (strContains_of_append_left _ hcore)
  | some st =>
    cases has : issue.fields.assignee with
    | none =>
      exact strContains_of_append_left _ (strContains_of_append_left _ hcore)
    | some a =>
      exact strContains_of_append_left _ (strContains_of_append_left _
        (strContains_of_append_left _ (strContains_of_append_left _ hcore)))

theorem updateIssueAfterFields_no_transition (args : UpdateArgsT) (env : Env) (w : World)
    (va : UpdateArgsT) (creds : Creds) (f : JiraUpdateIssuePayloadFields)
    (msgs : List String) (log : CallLog) (s : String) (ts : List Transition) (issue : Issue)
    (hstat : va.status = some s) (hs : s ≠ "")
    (htr : w.getTransitions = .ok (some ts))
    (hfind : findTargetTransition ts s = none)
    (hget : w.getIssue = .ok issue) :
    (updateIssueAfterFields args env w va creds f msgs log).2.postTransitionCalled
        = log.postTransitionCalled
    ∧ (updateIssueAfterFields args env w va creds f msgs log).1.isError = false
    ∧ ∃ txt, (updateIssueAfterFields args env w va creds f msgs log).1.content = [txt]
        ∧ strContains txt ("- ⚠️ Warning: Status transition to \"" ++ s
            ++ "\" not available. Available transitions: "
            ++ jsOrStr (joinWith ", " (ts.map (fun t => t.toStatus.name))) "None available"
            ++ ".") = true := by
  have hsE : s.isEmpty = false := by
    cases he : s.isEmpty
    · rfl
    · exact absurd ((String.isEmpty_iff s).mp he) hs
  have htru : jsTruthyOptStr va.status = true := by
    rw [hstat]
    simp [jsTruthyOptStr, hsE]
  have hss : statusTransitionStep w va msgs log
      = (msgs ++ ["- ⚠️ Warning: Status transition to \"" ++ s
            ++ "\" not available. Available transitions: "
            ++ jsOrStr (joinWith ", " (ts.map (fun t => t.toStatus.name))) "None available"
            ++ "."],
         { log with getTransitionsCalled := true }) := by
    unfold statusTransitionStep
    rw [htru]
    simp only [if_true, htr]
    rw [hstat]
    simp only [Option.getD_some]
    rw [hfind]
  unfold updateIssueAfterFields
  rw [hss]
  have hcond : (fieldsEmpty f && !jsTruthyOptStr va.status
      && !jsTruthyOptStr va.assigneeName) = false := by
    simp [htru]
  simp only [hcond, Bool.false_eq_true, if_false]
  have hne : (msgs ++ ["- ⚠️ Warning: Status transition to \"" ++ s
      ++ "\" not available. Available transitions: "
      ++ jsOrStr (joinWith ", " (ts.map (fun t => t.toStatus.name))) "None available"
      ++ "."]).isEmpty = false := by
    cases msgs <;> rfl
  simp only [hne, Bool.false_and, Bool.false_eq_true, if_false, hget]
  refine ⟨trivial, trivial, ?_⟩
  exact ⟨_, rfl, formatSuccess_contains issue _ creds.jiraHost _
    (List.mem_append_right msgs (List.mem_singleton.mpr rfl))⟩

/-- The no-op argument bag with a status request added. -/
def argsStatusFix : UpdateArgsT :=
  { argsNoopFix with status := some "Done" }

/-- A fetched transition set that is non-empty but whose only target
name is the empty string (so the names joined with a comma give the
empty string, which is falsy in JavaScript). -/
def tsEmptyNameFix : List Transition :=
  [{ id := "5", name := "t", toStatus := { name := "", id := "1" } }]

/-- A world where the transitions fetch returns `tsEmptyNameFix`. -/
def wEmptyNameFix : World :=
  { validation := Except.ok argsStatusFix, userSearch := Except.ok (some []),
    putFields := Except.ok (), getTransitions := Except.ok (some tsEmptyNameFix),
    postTransition := Except.ok (), getIssue := Except.ok issueFix }

/-- C6. The spec says the not-available warning lists every `to.name`
comma-joined, with `"None available"` reserved for the empty transition
set.  The source computes `join(', ') || "None available"`, and JS `||`
also replaces a non-empty set whose joined names are the empty string:
with one transition whose target name is `""`, no transition POST is
made (as claimed), but the warning says `"None available"` and does not
contain the comma-joined list (`"Available transitions: ."`). -/
theorem transition_warning_counterexample :
    findTargetTransition tsEmptyNameFix "Done" = none
    ∧ tsEmptyNameFix ≠ []
    ∧ (updateIssue argsStatusFix envFix wEmptyNameFix).2.postTransitionCalled = false
    ∧ (updateIssue argsStatusFix envFix wEmptyNameFix).1.content.length = 1
    ∧ strContains ((updateIssue argsStatusFix envFix wEmptyNameFix).1.content.headD "")
        "Available transitions: None available." = true
    ∧ strContains ((updateIssue argsStatusFix envFix wEmptyNameFix).1.content.headD "")
        ("Available transitions: "
          ++ joinWith ", " (tsEmptyNameFix.map (fun t => t.toStatus.name)) ++ ".") = false := by
  refine ⟨rfl, by decide, ?_, ?_, ?_, ?_⟩ <;> decide

/-- C6 (amended). The transition resolver returns the first transition
whose `to.name` equals the target case-insensitively (first-match
recursion, membership and soundness of the match, and "not found" iff no
element matches); and when resolution fails, `updateIssue` issues no
transition POST and reports a warning whose available-options list is
every `to.name` comma-joined, except that `"None available"` is used
whenever the joined string is empty — in particular when the fetched
set is empty. -/
theorem findTargetTransition_spec :
    (∀ (t : Transition) (ts : List Transition) (q : String),
        findTargetTransition (t :: ts) q
          = if (jsToLowerCase t.toStatus.name == jsToLowerCase q) = true then some t
            else findTargetTransition ts q)
    ∧ (∀ (ts : List Transition) (q : String) (t : Transition),
        findTargetTransition ts q = some t →
          t ∈ ts ∧ (jsToLowerCase t.toStatus.name == jsToLowerCase q) = true)
    ∧ (∀ (ts : List Transition) (q : String),
        findTargetTransition ts q = none ↔
          ∀ t ∈ ts, (jsToLowerCase t.toStatus.name == jsToLowerCase q) = false)
    ∧ (∀ (args : UpdateArgsT) (env : Env) (w : World) (va : UpdateArgsT) (creds : Creds)
          (s : String) (ts : List Transition) (issue : Issue),
        w.validation = .ok va →
        getJiraCredentials va env = .ok creds →
        va.status = some s → s ≠ "" →
        va.assigneeName = none →
        w.putFields = .ok () →
        w.getTransitions = .ok (some ts) →
        findTargetTransition ts s = none →
        w.getIssue = .ok issue →
        (updateIssue args env w).2.postTransitionCalled = false
        ∧ (updateIssue args env w).1.isError = false
        ∧ ∃ txt, (updateIssue args env w).1.content = [txt]
            ∧ strContains txt ("- ⚠️ Warning: Status transition to \"" ++ s
                ++ "\" not available. Available transitions: "
                ++ jsOrStr (joinWith ", " (ts.map (fun t => t.toStatus.name))) "None available"
                ++ ".") = true) := by
  refine ⟨?_, ?_, ?_, ?_⟩
  · intro t ts q
    cases hp : (jsToLowerCase t.toStatus.name == jsToLowerCase q) <;>
      simp [findTargetTransition, List.find?_cons, hp]
  · intro ts q t hf
    have hp := List.find?_some hf
    exact ⟨List.mem_of_find?_eq_some hf, hp⟩
  · intro ts q
    constructor
    · intro h t ht
      have := List.find?_eq_none.mp h t ht
      simpa using this
    · intro h
      apply List.find?_eq_none.mpr
      intro t ht
      simp [h t ht]
  · intro args env w va creds s ts issue hval hcred hstat hs hassign hput htr hfind hget
    simp only [updateIssue, hval, hcred]
    have h1 : resolveAssigneeStep w va ({} : CallLog) = ([], none, {}) := by
      simp [resolveAssigneeStep, hassign, jsTruthyOptStr]
    rw [h1]
    cases hfe : fieldsEmpty (buildJiraUpdateFieldsPayload va.summary va.description
        none toADF) with
    | false =>
      simp only [hfe, Bool.not_false, if_true, hput]
      refine ⟨?_,
        (updateIssueAfterFields_no_transition _ _ _ _ _ _ _ _ _ _ _
          hstat hs htr hfind hget).2.1,
        (updateIssueAfterFields_no_transition _ _ _ _ _ _ _ _ _ _ _
          hstat hs htr hfind hget).2.2⟩
      rw [(updateIssueAfterFields_no_transition _ _ _ _ _ _ _ _ _ _ _
          hstat hs htr hfind hget).1]
    | true =>
      simp only [hfe, Bool.not_true, Bool.false_eq_true, if_false]
      refine ⟨?_,
        (updateIssueAfterFields_no_transition _ _ _ _ _ _ _ _ _ _ _
          hstat hs htr hfind hget).2.1,
        (updateIssueAfterFields_no_transition _ _ _ _ _ _ _ _ _ _ _
          hstat hs htr hfind hget).2.2⟩
      rw [(updateIssueAfterFields_no_transition _ _ _ _ _ _ _ _ _ _ _
          hstat hs htr hfind hget).1]

/-- A world whose transitions fetch returns the empty set. -/
def wStatusFix : World :=
  { validation := Except.ok argsStatusFix, userSearch := Except.ok (some []),
    putFields := Except.ok (), getTransitions := Except.ok (some []),
    postTransition := Except.ok (), getIssue := Except.ok issueFix }

theorem findTargetTransition_spec_witness :
    (updateIssue argsStatusFix envFix wStatusFix).2.postTransitionCalled = false
    ∧ (updateIssue argsStatusFix envFix wStatusFix).1.isError = false
    ∧ ∃ txt, (updateIssue argsStatusFix envFix wStatusFix).1.content = [txt]
        ∧ strContains txt ("- ⚠️ Warning: Status transition to \"" ++ "Done"
            ++ "\" not available. Available transitions: "
            ++ jsOrStr (joinWith ", " (([] : List Transition).map (fun t => t.toStatus.name)))
                "None available" ++ ".") = true :=
  findTargetTransition_spec.2.2.2 argsStatusFix envFix wStatusFix argsStatusFix credsFix
    "Done" [] issueFix rfl rfl rfl (by decide) rfl rfl rfl rfl rfl

theorem mapError_404_contains (m : String) (dm : Option (List String)) (de : Option String)
    (dj : String) (k : String) (hk : k ≠ "") (h : Option String) :
    (mapErrorToResponseFormat (.axiosResp m 404 dm de dj) (some k) h).isError = true
    ∧ ∃ txt, (mapErrorToResponseFormat (.axiosResp m 404 dm de dj) (some k) h).content = [txt]
        ∧ strContains txt "JIRA_ISSUE_NOT_FOUND" = true
        ∧ strContains txt k = true := by
  have hkE : k.isEmpty = false := by
    cases he : k.isEmpty
    · rfl
    · exact absurd ((String.isEmpty_iff k).mp he) hk
  unfold mapErrorToResponseFormat
  simp only [jsOrOptD, hkE, Bool.false_eq_true, if_false]
  refine ⟨trivial, _, rfl, ?_, ?_⟩
  · apply strContains_of_append_left
    apply strContains_of_append_left
    apply strContains_of_append_left
    apply strContains_of_append_left
    apply strContains_of_append_left
    apply strContains_of_append_right
    exact strContains_refl _
  · apply strContains_of_append_right
    apply strContains_of_append_left
    apply strContains_of_append_right
    exact strContains_refl _

/-- C9. When a remote call whose failure is fatal (the fields PUT, or
the final snapshot fetch) throws an HTTP-response error with status 404,
the response is an error carrying the code `JIRA_ISSUE_NOT_FOUND` and
its remediation text includes the issue id or key of the invocation. -/
theorem updateIssue_404_spec (args : UpdateArgsT) (env : Env) (w : World)
    (va : UpdateArgsT) (creds : Creds) (s : String) (m : String)
    (dm : Option (List String)) (de : Option String) (dj : String)
    (hval : w.validation = .ok va)
    (hcred : getJiraCredentials va env = .ok creds)
    (hassign : va.assigneeName = none)
    (hsum : va.summary = some s)
    (hkey : va.issueIdOrKey ≠ "")
    (h404 : w.putFields = .error (.axiosResp m 404 dm de dj)
        ∨ (w.putFields = .ok () ∧ w.getIssue = .error (.axiosResp m 404 dm de dj))) :
    (updateIssue args env w).1.isError = true
    ∧ ∃ txt, (updateIssue args env w).1.content = [txt]
        ∧ strContains txt "JIRA_ISSUE_NOT_FOUND" = true
        ∧ strContains txt va.issueIdOrKey = true := by
  have hkeyT : jsTruthyOptStr (some va.issueIdOrKey) = true := by
    have hkE : va.issueIdOrKey.isEmpty = false := by
      cases he : va.issueIdOrKey.isEmpty
      · rfl
      · exact absurd ((String.isEmpty_iff _).mp he) hkey
    simp [jsTruthyOptStr, hkE]
  simp only [updateIssue, hval, hcred]
  have h1 : resolveAssigneeStep w va ({} : CallLog) = ([], none, {}) := by
    simp [resolveAssigneeStep, hassign, jsTruthyOptStr]
  rw [h1]
  have hfe : fieldsEmpty (buildJiraUpdateFieldsPayload va.summary va.description
      none toADF) = false := by
    rw [fieldsEmpty, build_summary_eq, hsum]
    simp
  simp only [hfe, Bool.not_false, if_true]
  rcases h404 with hput | ⟨hput, hget⟩
  · simp only [hput]
    unfold updateIssueCatch
    simp only [hkeyT, if_true, Option.getD_some]
    exact mapError_404_contains m dm de dj va.issueIdOrKey hkey _
  · simp only [hput]
    unfold updateIssueAfterFields
    have hcond : (fieldsEmpty (buildJiraUpdateFieldsPayload va.summary va.description
        none toADF) && !jsTruthyOptStr va.status && !jsTruthyOptStr va.assigneeName)
        = false := by
      simp [hfe]
    simp only [hcond, Bool.false_eq_true, if_false, hget]
    unfold updateIssueCatch
    simp only [hkeyT, if_true, Option.getD_some]
    exact mapError_404_contains m dm de dj va.issueIdOrKey hkey _

/-- A world where the field-update PUT fails with HTTP 404. -/
def w404Fix : World :=
  { validation := Except.ok argsSummaryFix, userSearch := Except.ok (some []),
    putFields := Except.error (JsError.axiosResp "Request failed with status code 404" 404
      none none "{}"),
    getTransitions := Except.ok (some []), postTransition := Except.ok (),
    getIssue := Except.ok issueFix }

theorem updateIssue_404_spec_witness :
    (updateIssue argsSummaryFix envFix w404Fix).1.isError = true
    ∧ ∃ txt, (updateIssue argsSummaryFix envFix w404Fix).1.content = [txt]
        ∧ strContains txt "JIRA_ISSUE_NOT_FOUND" = true
        ∧ strContains txt argsSummaryFix.issueIdOrKey = true :=
  updateIssue_404_spec argsSummaryFix envFix w404Fix argsSummaryFix credsFix
    "Updated Summary" "Request failed with status code 404" none none "{}"
    rfl rfl rfl rfl (by decide) (Or.inl rfl)
